import Mathlib

/-!
Shallow embedding of the eframe winit integration shim
(crates/eframe/src/native/winit_integration.rs) together with the minimal
collaborator state it touches. Rust mutation through references is
rendered as explicit state passing; compile-time target configuration
(the cfg! macro) is rendered as a parameter ranging over target
operating systems. Collaborator code of the repository that is not part
of the integration file (the egui context methods, the egui_winit
input-state object, the epi_integration memory loader) is modelled from
the specification, as marked on each definition.
-/

namespace WinitIntegration

/-- Opaque identifier of a native window (winit WindowId). -/
abbrev WindowId := Nat

/-- Opaque identifier of a logical viewport (egui ViewportId). -/
abbrev ViewportId := Nat

/-- A point in time (std::time::Instant), only carried, never computed with. -/
abbrev Instant := Nat

/-- Opaque payload of an accessibility action request (accesskit ActionRequest). -/
abbrev ActionRequest := Nat

/-- Modelled from the spec: persisted UI memory (panel sizes, collapsed
state, etc.) of the egui context, kept abstract as a key-value list; the
concrete egui Memory type lives in the egui crate, outside the
integration file. -/
structure Memory where
  kv : List (String × String)
deriving DecidableEq, Repr

/-- Modelled from the spec: the default-initialized memory that a fresh
context starts from (Rust Default::default()). -/
def default_memory : Memory := ⟨[]⟩

/-- Modelled from the spec: the observable part of the egui context the
integration file touches: its UI memory, whether secondary viewports are
embedded, and whether the accessibility feature is enabled. -/
structure Context where
  memory : Memory
  embed_viewports : Bool
  accesskit_enabled : Bool
deriving DecidableEq, Repr

/-- Modelled from the spec: a freshly created egui context
(egui::Context::default()). -/
def Context.default : Context :=
  { memory := default_memory, embed_viewports := false, accesskit_enabled := false }

/-- Modelled from the spec: egui Context::set_embed_viewports, configuring
whether secondary viewports are embedded as overlays. -/
def Context.set_embed_viewports (c : Context) (b : Bool) : Context :=
  { c with embed_viewports := b }

/-- Modelled from the spec: egui Context::enable_accesskit, enabling the
accessibility feature on the context. -/
def Context.enable_accesskit (c : Context) : Context :=
  { c with accesskit_enabled := true }

/-- Modelled from the spec: egui Context::disable_accesskit, disabling the
accessibility feature on the context. -/
def Context.disable_accesskit (c : Context) : Context :=
  { c with accesskit_enabled := false }

/-- Modelled from the spec: the storage collaborator, summarized by the
outcome of loading and deserializing the persisted UI memory blob
(none when the blob is absent or fails to load or deserialize). -/
structure Storage where
  stored_memory : Option Memory

/-- Modelled from the spec: crate::native::epi_integration::load_egui_memory,
the best-effort attempt to restore previously persisted UI memory from the
optional storage collaborator. -/
def load_egui_memory (storage : Option Storage) : Option Memory :=
  storage.bind Storage.stored_memory

/-- Target operating systems distinguished by the compile-time cfg!
configuration in create_egui_context. -/
inductive TargetOs where
  | freebsd
  | linux
  | macos
  | openbsd
  | windows
  | android
  | ios
  | web
  | other
deriving DecidableEq, Repr

/-- The compile-time desktop flag of create_egui_context:
cfg!(any(target_os = freebsd, linux, macos, openbsd, windows)),
rendered as a function of the target operating system. -/
def IS_DESKTOP (os : TargetOs) : Bool :=
  match os with
  | .freebsd => true
  | .linux => true
  | .macos => true
  | .openbsd => true
  | .windows => true
  | .android => false
  | .ios => false
  | .web => false
  | .other => false

/-- create_egui_context from the integration file: builds a default
context, embeds viewports exactly when not on desktop, then overwrites
the context memory with the loaded memory, falling back to the default
(unwrap_or_default). -/
def create_egui_context (os : TargetOs) (storage : Option Storage) : Context :=
  let egui_ctx := Context.default
  let egui_ctx := egui_ctx.set_embed_viewports (!IS_DESKTOP os)
  let memory := (load_egui_memory storage).getD default_memory
  { egui_ctx with memory := memory }

/-- An accessibility window event (accesskit_winit::WindowEvent). -/
inductive AccessKitWindowEvent where
  | InitialTreeRequested
  | ActionRequested (request : ActionRequest)
  | AccessibilityDeactivated
deriving DecidableEq, Repr

/-- An accessibility event (accesskit_winit::Event): a window event tagged
with its owning window. -/
structure AccessKitEvent where
  window_id : WindowId
  window_event : AccessKitWindowEvent
deriving DecidableEq, Repr

/-- The custom user event eframe injects into the winit event loop. -/
inductive UserEvent where
  | RequestRepaint (viewport_id : ViewportId) (when : Instant) (frame_nr : Nat)
  | AccessKitEvent (event : AccessKitEvent)
deriving DecidableEq, Repr

/-- Native events other than user events (winit window, device and
lifecycle events), kept abstract: the integration file only routes them. -/
inductive GenericEvent where
  | WindowEvent
  | DeviceEvent
  | NewEvents
  | Suspended
  | Resumed
  | AboutToWait
  | LoopExiting
deriving DecidableEq, Repr

/-- A native event delivered by the winit event loop
(winit::event::Event with the eframe UserEvent as its user payload). -/
inductive WinitEvent where
  | UserEvent (user_event : UserEvent)
  | Generic (event : GenericEvent)
deriving DecidableEq, Repr

/-- The repaint directive returned by the event router (EventResult). -/
inductive EventResult where
  | Wait
  | RepaintNow (window_id : WindowId)
  | RepaintNext (window_id : WindowId)
  | RepaintAt (window_id : WindowId) (when : Instant)
  | Exit
deriving DecidableEq, Repr

/-- The theme reported by the winit window (winit::window::Theme). -/
inductive WinitTheme where
  | Light
  | Dark
deriving DecidableEq, Repr

/-- The eframe theme type (crate::Theme). -/
inductive Theme where
  | Light
  | Dark
deriving DecidableEq, Repr

/-- Modelled from the spec: epi_integration::theme_from_winit_theme,
translating the platform theme into the eframe theme. -/
def theme_from_winit_theme (t : WinitTheme) : Theme :=
  match t with
  | .Light => Theme.Light
  | .Dark => Theme.Dark

/-- The winit window handle, summarized by what system_theme reads from
it: the optional theme that the platform reports for it. -/
structure Window where
  theme : Option WinitTheme
deriving DecidableEq, Repr

/-- The host configuration (crate::NativeOptions), summarized by the one
field the integration file reads. -/
structure NativeOptions where
  follow_system_theme : Bool
deriving DecidableEq, Repr

/-- system_theme from the integration file: reads the platform theme only
when the configuration opts into following the system theme. -/
def system_theme (window : Window) (options : NativeOptions) : Option Theme :=
  if options.follow_system_theme then
    window.theme.map theme_from_winit_theme
  else
    none

/-- Modelled from the spec: egui_winit::short_generic_event_description,
a pure classification of non-user events into static labels. -/
def short_generic_event_description (event : GenericEvent) : String :=
  match event with
  | .WindowEvent => "Event::WindowEvent"
  | .DeviceEvent => "Event::DeviceEvent"
  | .NewEvents => "Event::NewEvents"
  | .Suspended => "Event::Suspended"
  | .Resumed => "Event::Resumed"
  | .AboutToWait => "Event::AboutToWait"
  | .LoopExiting => "Event::LoopExiting"

/-- short_event_description from the integration file: a static label for
each event, used for logging and profiling. -/
def short_event_description (event : WinitEvent) : String :=
  match event with
  | .UserEvent user_event =>
    match user_event with
    | .RequestRepaint _ _ _ => "UserEvent::RequestRepaint"
    | .AccessKitEvent _ => "UserEvent::AccessKitEvent"
  | .Generic g => short_generic_event_description g

/-- The input-state object of the egui_winit crate, summarized by the
state the integration file touches through it: the egui context and, -
modelled from the spec - the accessibility actions forwarded to it. -/
structure EguiWinitState where
  egui_ctx : Context
  accesskit_actions : List ActionRequest
deriving DecidableEq, Repr

/-- Modelled from the spec: egui_winit State::on_accesskit_action_request,
forwarding one accessibility action request to the input-state object. -/
def EguiWinitState.on_accesskit_action_request
    (st : EguiWinitState) (request : ActionRequest) : EguiWinitState :=
  { st with accesskit_actions := st.accesskit_actions ++ [request] }

/-- on_accesskit_window_event from the integration file: dispatches one
accessibility window event, mutating the input-state object (explicit
state passing) and returning the repaint directive. -/
def on_accesskit_window_event
    (egui_winit : EguiWinitState) (window_id : WindowId)
    (event : AccessKitWindowEvent) : EguiWinitState × EventResult :=
  match event with
  | .InitialTreeRequested =>
    ({ egui_winit with egui_ctx := egui_winit.egui_ctx.enable_accesskit },
      EventResult.RepaintNow window_id)
  | .ActionRequested request =>
    (egui_winit.on_accesskit_action_request request,
      EventResult.RepaintNext window_id)
  | .AccessibilityDeactivated =>
    ({ egui_winit with egui_ctx := egui_winit.egui_ctx.disable_accesskit },
      EventResult.Wait)

/-- The opaque handle of the running event loop
(winit EventLoopWindowTarget), never inspected by the contract. -/
abbrev EventLoopWindowTarget := Unit

/-- The platform-integration error type (crate::Result error payload),
kept abstract. -/
abbrev IntegrationError := String

/-- The WinitApp contract from the integration file: the capability set a
host application implements, over its own state type. Only on_event has a
fallible result type; the other operations return plain values. -/
structure WinitApp (Self : Type) where
  frame_nr : Self → ViewportId → Nat
  window : Self → WindowId → Option Window
  window_id_from_viewport_id : Self → ViewportId → Option WindowId
  save_and_destroy : Self → Self
  run_ui_and_paint : Self → EventLoopWindowTarget → WindowId → Self × EventResult
  on_event : Self → EventLoopWindowTarget → WinitEvent →
    Except IntegrationError (Self × EventResult)

/-- Claim C1: for every prior state and every window identifier, the
initial tree requested event yields the RepaintNow directive for that
window, and the accessibility feature is enabled on the context
afterwards, regardless of the prior enabled or disabled state. -/
theorem on_accesskit_initial_tree_requested_spec
    (st : EguiWinitState) (w : WindowId) :
    (on_accesskit_window_event st w AccessKitWindowEvent.InitialTreeRequested).2
      = EventResult.RepaintNow w ∧
    (on_accesskit_window_event st w
      AccessKitWindowEvent.InitialTreeRequested).1.egui_ctx.accesskit_enabled
      = true := by
  exact ⟨rfl, rfl⟩

/-- Claim C2: for every prior state and every window identifier, the
accessibility deactivated event yields the Wait directive, and the
accessibility feature is disabled on the context afterwards. -/
theorem on_accesskit_deactivated_spec
    (st : EguiWinitState) (w : WindowId) :
    (on_accesskit_window_event st w
      AccessKitWindowEvent.AccessibilityDeactivated).2 = EventResult.Wait ∧
    (on_accesskit_window_event st w
      AccessKitWindowEvent.AccessibilityDeactivated).1.egui_ctx.accesskit_enabled
      = false := by
  exact ⟨rfl, rfl⟩

/-- Claim C3: for every prior state, window identifier and action request,
the action requested event forwards the request to the input-state object
and yields the RepaintNext directive for that window. -/
theorem on_accesskit_action_requested_spec
    (st : EguiWinitState) (w : WindowId) (r : ActionRequest) :
    (on_accesskit_window_event st w (AccessKitWindowEvent.ActionRequested r)).2
      = EventResult.RepaintNext w ∧
    (on_accesskit_window_event st w
      (AccessKitWindowEvent.ActionRequested r)).1.accesskit_actions
      = st.accesskit_actions ++ [r] := by
  exact ⟨rfl, rfl⟩

/-- Claim C4: for every window and every options value whose
follow_system_theme field is false, system_theme returns none,
independent of the theme the window reports. -/
theorem system_theme_not_following_spec
    (window : Window) (options : NativeOptions)
    (h : options.follow_system_theme = false) :
    system_theme window options = none := by
  simp [system_theme, h]

/-- Witness for claim C4 at a window that does report a theme. -/
theorem system_theme_not_following_witness :
    system_theme ⟨some WinitTheme.Dark⟩ ⟨false⟩ = none :=
  system_theme_not_following_spec ⟨some WinitTheme.Dark⟩ ⟨false⟩ rfl

/-- Claim C5: for every target and every storage collaborator from which
loading the persisted UI memory yields nothing, create_egui_context
returns a context whose memory equals the default-initialized memory. -/
theorem create_egui_context_no_memory_spec
    (os : TargetOs) (storage : Option Storage)
    (h : load_egui_memory storage = none) :
    (create_egui_context os storage).memory = default_memory := by
  simp [create_egui_context, h]

/-- Witness for claim C5 with an absent storage collaborator. -/
theorem create_egui_context_no_memory_witness :
    (create_egui_context TargetOs.linux none).memory = default_memory :=
  create_egui_context_no_memory_spec TargetOs.linux none rfl

/-- Claim C6: for every target and every storage collaborator from which
loading the persisted UI memory yields a value m, create_egui_context
returns a context whose memory equals m, and not the default whenever m
differs from the default. -/
theorem create_egui_context_restores_memory_spec
    (os : TargetOs) (storage : Option Storage) (m : Memory)
    (h : load_egui_memory storage = some m) :
    (create_egui_context os storage).memory = m ∧
    (m ≠ default_memory →
      (create_egui_context os storage).memory ≠ default_memory) := by
  have hm : (create_egui_context os storage).memory = m := by
    simp [create_egui_context, h]
  exact ⟨hm, fun hne => hm ▸ hne⟩

/-- Witness for claim C6 with a stored memory that differs from the
default. -/
theorem create_egui_context_restores_memory_witness :
    (create_egui_context TargetOs.windows
      (some ⟨some ⟨[("k", "v")]⟩⟩)).memory = ⟨[("k", "v")]⟩ ∧
    ((⟨[("k", "v")]⟩ : Memory) ≠ default_memory →
      (create_egui_context TargetOs.windows
        (some ⟨some ⟨[("k", "v")]⟩⟩)).memory ≠ default_memory) :=
  create_egui_context_restores_memory_spec TargetOs.windows
    (some ⟨some ⟨[("k", "v")]⟩⟩) ⟨[("k", "v")]⟩ rfl

/-- Claim C7: the compile-time desktop flag is true exactly for freebsd,
linux, macos, openbsd and windows, and for every storage argument the
created context embeds secondary viewports if and only if the flag is
false. -/
theorem create_egui_context_desktop_flag_spec
    (os : TargetOs) (storage : Option Storage) :
    (IS_DESKTOP os = true ↔
      (os = TargetOs.freebsd ∨ os = TargetOs.linux ∨ os = TargetOs.macos ∨
        os = TargetOs.openbsd ∨ os = TargetOs.windows)) ∧
    ((create_egui_context os storage).embed_viewports = true ↔
      IS_DESKTOP os = false) := by
  cases os <;>
    simp [IS_DESKTOP, create_egui_context, Context.set_embed_viewports,
      Context.default]

/-- Claim C8: in the WinitApp contract only on_event is fallible: on every
event it returns either exactly one repaint directive, which is one of the
five EventResult forms, or a platform-integration error, while frame_nr,
window_id_from_viewport_id, save_and_destroy and run_ui_and_paint all
return plain values with no error result. -/
theorem winit_app_fallibility_spec {S : Type} (app : WinitApp S) (s : S)
    (el : EventLoopWindowTarget) (e : WinitEvent) (vp : ViewportId)
    (w : WindowId) :
    ((∃ err, app.on_event s el e = Except.error err) ∨
      (∃ s2 r, app.on_event s el e = Except.ok (s2, r) ∧
        (r = EventResult.Wait ∨ (∃ wid, r = EventResult.RepaintNow wid) ∨
          (∃ wid, r = EventResult.RepaintNext wid) ∨
          (∃ wid t, r = EventResult.RepaintAt wid t) ∨
          r = EventResult.Exit))) ∧
    (∃ n, app.frame_nr s vp = n) ∧
    (∃ o, app.window_id_from_viewport_id s vp = o) ∧
    (∃ s2, app.save_and_destroy s = s2) ∧
    (∃ p, app.run_ui_and_paint s el w = p) := by
  refine ⟨?_, ⟨_, rfl⟩, ⟨_, rfl⟩, ⟨_, rfl⟩, ⟨_, rfl⟩⟩
  cases h : app.on_event s el e with
  | error err => exact Or.inl ⟨err, rfl⟩
  | ok pr =>
    obtain ⟨s2, r⟩ := pr
    refine Or.inr ⟨s2, r, rfl, ?_⟩
    cases r with
    | Wait => exact Or.inl rfl
    | RepaintNow wid => exact Or.inr (Or.inl ⟨wid, rfl⟩)
    | RepaintNext wid => exact Or.inr (Or.inr (Or.inl ⟨wid, rfl⟩))
    | RepaintAt wid t => exact Or.inr (Or.inr (Or.inr (Or.inl ⟨wid, t, rfl⟩)))
    | Exit => exact Or.inr (Or.inr (Or.inr (Or.inr rfl)))

/-- Claim C9: short_event_description returns the label
UserEvent::RequestRepaint for every repaint-request user event and the
label UserEvent::AccessKitEvent for every accessibility user event,
regardless of the payload of the event. -/
theorem short_event_description_spec :
    (∀ vp t fnr,
      short_event_description
        (WinitEvent.UserEvent (UserEvent.RequestRepaint vp t fnr))
        = "UserEvent::RequestRepaint") ∧
    (∀ ev,
      short_event_description
        (WinitEvent.UserEvent (UserEvent.AccessKitEvent ev))
        = "UserEvent::AccessKitEvent") := by
  exact ⟨fun _ _ _ => rfl, fun _ => rfl⟩

/-- Claim C10: for every accessibility window event and window identifier,
the directive returned is one of Wait, RepaintNow for that window, or
RepaintNext for that window; it is never Exit or RepaintAt and never
carries another window identifier. -/
theorem on_accesskit_directive_invariant_spec
    (st : EguiWinitState) (w : WindowId) (e : AccessKitWindowEvent) :
    (on_accesskit_window_event st w e).2 = EventResult.Wait ∨
    (on_accesskit_window_event st w e).2 = EventResult.RepaintNow w ∨
    (on_accesskit_window_event st w e).2 = EventResult.RepaintNext w := by
  cases e with
  | InitialTreeRequested => exact Or.inr (Or.inl rfl)
  | ActionRequested r => exact Or.inr (Or.inr rfl)
  | AccessibilityDeactivated => exact Or.inl rfl

end WinitIntegration
